import Mathlib

/-!
Shallow embedding of the Phaser `Graphics` game object
(`src/gameobjects/graphics/Graphics.js`): the command buffer, the style
state, the path/shape builder methods, `clear`, `generateTexture` and
`preDestroy`, together with theorems settling the specification claims.

JavaScript numbers are modelled as exact rationals (`ℚ`); the flattened
command buffer (`this.commandBuffer`, a JS array holding opcode constants
followed by their operands) is a `List JsVal`, where `JsVal` distinguishes
numbers, booleans, the JS value `undefined` (which `arc` can push when its
`anticlockwise` argument is omitted) and the opcode constants.
-/

namespace PhaserGraphics

/-- Modelled from the spec: the opcode enumeration of `Commands.js`
(required by `Graphics.js` but not part of the reviewed sources). The spec
fixes the enumeration in §6; the concrete numeric values of the constants
are irrelevant to the claims, so opcodes are modelled as distinct tags. -/
inductive Commands where
  | ARC
  | BEGIN_PATH
  | CLOSE_PATH
  | FILL_RECT
  | FILL_STYLE
  | FILL_PATH
  | FILL_TRIANGLE
  | LINE_STYLE
  | LINE_TO
  | LINE_FX_TO
  | MOVE_TO
  | MOVE_FX_TO
  | ROTATE
  | SAVE
  | RESTORE
  | SCALE
  | STROKE_PATH
  | STROKE_TRIANGLE
  | TRANSLATE
deriving DecidableEq, Repr

/-- A value stored in the flattened command buffer: an opcode constant, a
number, a boolean, or the JS value `undefined`. -/
inductive JsVal where
  | cmd (c : Commands)
  | num (q : ℚ)
  | bool (b : Bool)
  | undef
deriving DecidableEq, Repr

/-- A 2-D point object (anything with `.x` and `.y`), as consumed by
`strokePoints` / `fillPoints`. -/
structure Point where
  x : ℚ
  y : ℚ
deriving DecidableEq, Repr

/-- Modelled from the spec: `MATH_CONST.PI2` (`math/const.js`, not part of
the reviewed sources) is `Math.PI * 2`, i.e. 2π rounded to an IEEE-754
double. `Math.PI` is exactly `884279719003555 / 2^48`, so `PI2` is exactly
`884279719003555 / 2^47`. -/
def PI2 : ℚ := 884279719003555 / 2 ^ 47

/-- The state of one `Graphics` object: its position (`this.x` / `this.y`,
read by `generateTexture`), the command buffer, the five style-default
scalars, and the `_lineWidth` cache written by `lineStyle`. -/
structure GraphicsState where
  x : ℚ
  y : ℚ
  commandBuffer : List JsVal
  defaultFillColor : ℚ
  defaultFillAlpha : ℚ
  defaultStrokeWidth : ℚ
  defaultStrokeColor : ℚ
  defaultStrokeAlpha : ℚ
  lineWidth : ℚ
deriving DecidableEq, Repr

/-- The JS runtime error raised when the builder reads `points[i].x` for an
out-of-range index `i`: `points[i]` is `undefined` and the property access
throws a `TypeError`. -/
inductive JsError where
  | typeError
deriving DecidableEq, Repr

/-- An omitted-or-given boolean argument pushed verbatim into the buffer
(`arc` pushes its `anticlockwise` argument without defaulting it). -/
def optBoolVal : Option Bool → JsVal
  | none => JsVal.undef
  | some b => JsVal.bool b

/-- Graphics#lineStyle: pushes `LINE_STYLE, lineWidth, color, alpha`
(alpha defaulting to 1) and caches `lineWidth` in `_lineWidth`. -/
def lineStyle (g : GraphicsState) (lw color : ℚ) (alpha : Option ℚ) : GraphicsState :=
  { g with
      commandBuffer := g.commandBuffer ++
        [JsVal.cmd Commands.LINE_STYLE, JsVal.num lw, JsVal.num color,
          JsVal.num (alpha.getD 1)]
      lineWidth := lw }

/-- Graphics#fillStyle: pushes `FILL_STYLE, color, alpha` (alpha
defaulting to 1). -/
def fillStyle (g : GraphicsState) (color : ℚ) (alpha : Option ℚ) : GraphicsState :=
  { g with
      commandBuffer := g.commandBuffer ++
        [JsVal.cmd Commands.FILL_STYLE, JsVal.num color, JsVal.num (alpha.getD 1)] }

/-- Graphics#beginPath. -/
def beginPath (g : GraphicsState) : GraphicsState :=
  { g with commandBuffer := g.commandBuffer ++ [JsVal.cmd Commands.BEGIN_PATH] }

/-- Graphics#closePath. -/
def closePath (g : GraphicsState) : GraphicsState :=
  { g with commandBuffer := g.commandBuffer ++ [JsVal.cmd Commands.CLOSE_PATH] }

/-- Graphics#fillPath. -/
def fillPath (g : GraphicsState) : GraphicsState :=
  { g with commandBuffer := g.commandBuffer ++ [JsVal.cmd Commands.FILL_PATH] }

/-- Graphics#strokePath. -/
def strokePath (g : GraphicsState) : GraphicsState :=
  { g with commandBuffer := g.commandBuffer ++ [JsVal.cmd Commands.STROKE_PATH] }

/-- Graphics#arc: pushes `ARC, x, y, radius, startAngle, endAngle,
anticlockwise` — note that `anticlockwise` is pushed exactly as supplied,
with no defaulting, so an omitted argument pushes `undefined`. -/
def arc (g : GraphicsState) (x y radius startAngle endAngle : ℚ)
    (anticlockwise : Option Bool) : GraphicsState :=
  { g with
      commandBuffer := g.commandBuffer ++
        [JsVal.cmd Commands.ARC, JsVal.num x, JsVal.num y, JsVal.num radius,
          JsVal.num startAngle, JsVal.num endAngle, optBoolVal anticlockwise] }

/-- Graphics#fillCircle: `beginPath(); arc(x, y, radius, 0, PI2);
fillPath()` — the `anticlockwise` argument of `arc` is omitted. -/
def fillCircle (g : GraphicsState) (x y radius : ℚ) : GraphicsState :=
  fillPath (arc (beginPath g) x y radius 0 PI2 none)

/-- Graphics#strokeCircle: `beginPath(); arc(x, y, radius, 0, PI2);
strokePath()` — the `anticlockwise` argument of `arc` is omitted. -/
def strokeCircle (g : GraphicsState) (x y radius : ℚ) : GraphicsState :=
  strokePath (arc (beginPath g) x y radius 0 PI2 none)

/-- Graphics#fillRect: pushes `FILL_RECT, x, y, width, height`. -/
def fillRect (g : GraphicsState) (x y width height : ℚ) : GraphicsState :=
  { g with
      commandBuffer := g.commandBuffer ++
        [JsVal.cmd Commands.FILL_RECT, JsVal.num x, JsVal.num y,
          JsVal.num width, JsVal.num height] }

/-- Graphics#moveTo: pushes `MOVE_TO, x, y`. -/
def moveTo (g : GraphicsState) (x y : ℚ) : GraphicsState :=
  { g with
      commandBuffer := g.commandBuffer ++
        [JsVal.cmd Commands.MOVE_TO, JsVal.num x, JsVal.num y] }

/-- Graphics#lineTo: pushes `LINE_TO, x, y`. -/
def lineTo (g : GraphicsState) (x y : ℚ) : GraphicsState :=
  { g with
      commandBuffer := g.commandBuffer ++
        [JsVal.cmd Commands.LINE_TO, JsVal.num x, JsVal.num y] }

/-- Graphics#strokeRect: four independent begin/move/line/stroke edge
groups — left edge, right edge, top edge, bottom edge — where the top and
bottom edges run from `minx = x - lineWidthHalf` to `maxx + width` with
`maxx = x + lineWidthHalf`, and `lineWidthHalf` is half the cached
`_lineWidth`. -/
def strokeRect (g : GraphicsState) (x y width height : ℚ) : GraphicsState :=
  let lineWidthHalf := g.lineWidth / 2
  let minx := x - lineWidthHalf
  let maxx := x + lineWidthHalf
  let g1 := strokePath (lineTo (moveTo (beginPath g) x y) x (y + height))
  let g2 := strokePath (lineTo (moveTo (beginPath g1) (x + width) y) (x + width) (y + height))
  let g3 := strokePath (lineTo (moveTo (beginPath g2) minx y) (maxx + width) y)
  strokePath (lineTo (moveTo (beginPath g3) minx (y + height)) (maxx + width) (y + height))

/-- Graphics#fillPoint: `if (!size || size < 1) { size = 1; } else
{ x -= size / 2; y -= size / 2; }` then pushes `FILL_RECT, x, y, size,
size`. An omitted `size` is `undefined` (falsy); `size = 0` is falsy. -/
def fillPoint (g : GraphicsState) (x y : ℚ) (size : Option ℚ) : GraphicsState :=
  match size with
  | none => fillRect g x y 1 1
  | some s =>
      if s = 0 ∨ s < 1 then fillRect g x y 1 1
      else fillRect g (x - s / 2) (y - s / 2) s s

/-- Graphics#fillTriangle: pushes `FILL_TRIANGLE` and the six vertex
coordinates. -/
def fillTriangle (g : GraphicsState) (x0 y0 x1 y1 x2 y2 : ℚ) : GraphicsState :=
  { g with
      commandBuffer := g.commandBuffer ++
        [JsVal.cmd Commands.FILL_TRIANGLE, JsVal.num x0, JsVal.num y0,
          JsVal.num x1, JsVal.num y1, JsVal.num x2, JsVal.num y2] }

/-- Graphics#strokeTriangle: pushes `STROKE_TRIANGLE` and the six vertex
coordinates. -/
def strokeTriangle (g : GraphicsState) (x0 y0 x1 y1 x2 y2 : ℚ) : GraphicsState :=
  { g with
      commandBuffer := g.commandBuffer ++
        [JsVal.cmd Commands.STROKE_TRIANGLE, JsVal.num x0, JsVal.num y0,
          JsVal.num x1, JsVal.num y1, JsVal.num x2, JsVal.num y2] }

/-- Graphics#lineBetween: `beginPath(); moveTo(x1, y1); lineTo(x2, y2);
strokePath()`. -/
def lineBetween (g : GraphicsState) (x1 y1 x2 y2 : ℚ) : GraphicsState :=
  strokePath (lineTo (moveTo (beginPath g) x1 y1) x2 y2)

/-- Graphics#lineFxTo: pushes `LINE_FX_TO, x, y, width, rgb, 1`. -/
def lineFxTo (g : GraphicsState) (x y width rgb : ℚ) : GraphicsState :=
  { g with
      commandBuffer := g.commandBuffer ++
        [JsVal.cmd Commands.LINE_FX_TO, JsVal.num x, JsVal.num y,
          JsVal.num width, JsVal.num rgb, JsVal.num 1] }

/-- Graphics#moveFxTo: pushes `MOVE_FX_TO, x, y, width, rgb, 1`. -/
def moveFxTo (g : GraphicsState) (x y width rgb : ℚ) : GraphicsState :=
  { g with
      commandBuffer := g.commandBuffer ++
        [JsVal.cmd Commands.MOVE_FX_TO, JsVal.num x, JsVal.num y,
          JsVal.num width, JsVal.num rgb, JsVal.num 1] }

/-- The loop `for (var i = 1; i < endIndex; i++) { this.lineTo(points[i].x,
points[i].y); }` of `strokePoints` / `fillPoints`, unrolled on its
iteration count `endIndex - i` (the fuel argument). Reading `points[i]`
past the end of the list yields `undefined` and the `.x` access throws,
leaving the buffer with the instructions pushed so far. -/
def lineToLoop : ℕ → GraphicsState → List Point → ℕ → GraphicsState × Option JsError
  | 0, g, _, _ => (g, none)
  | n + 1, g, points, i =>
      match points.get? i with
      | none => (g, some JsError.typeError)
      | some p => lineToLoop n (lineTo g p.x p.y) points (i + 1)

/-- Graphics#strokePoints: `beginPath()`, move to `points[0]` (read
unconditionally — an empty list throws a `TypeError` here, after
`BEGIN_PATH` was already pushed), `lineTo` each point with index in
`[1, endIndex)` (`endIndex` defaulting to `points.length`), an extra
`lineTo(points[0])` iff `autoClose` (defaulting to `false`), then
`strokePath()`. -/
def strokePoints (g : GraphicsState) (points : List Point)
    (autoClose : Option Bool) (endIndex : Option ℕ) : GraphicsState × Option JsError :=
  let ac := autoClose.getD false
  let ei := endIndex.getD points.length
  let g := beginPath g
  match points.get? 0 with
  | none => (g, some JsError.typeError)
  | some p0 =>
      match lineToLoop (ei - 1) (moveTo g p0.x p0.y) points 1 with
      | (g, some e) => (g, some e)
      | (g, none) =>
          let g := if ac then lineTo g p0.x p0.y else g
          (strokePath g, none)

/-- Graphics#fillPoints: identical to `strokePoints` with `fillPath()` in
place of `strokePath()`. -/
def fillPoints (g : GraphicsState) (points : List Point)
    (autoClose : Option Bool) (endIndex : Option ℕ) : GraphicsState × Option JsError :=
  let ac := autoClose.getD false
  let ei := endIndex.getD points.length
  let g := beginPath g
  match points.get? 0 with
  | none => (g, some JsError.typeError)
  | some p0 =>
      match lineToLoop (ei - 1) (moveTo g p0.x p0.y) points 1 with
      | (g, some e) => (g, some e)
      | (g, none) =>
          let g := if ac then lineTo g p0.x p0.y else g
          (fillPath g, none)

/-- Graphics#strokeEllipse (both the scalar and the shape overload): the
external `Ellipse#getPoints` helper (geom/ellipse, not part of the
reviewed sources) samples the ellipse boundary into `smoothness` points;
the method then delegates `strokePoints(points, true)`. The sampled point
list is taken as the argument here. -/
def strokeEllipse (g : GraphicsState) (sampledPoints : List Point) :
    GraphicsState × Option JsError :=
  strokePoints g sampledPoints (some true) none

/-- Graphics#fillEllipse (both overloads): delegates
`fillPoints(points, true)` on the externally sampled boundary points. -/
def fillEllipse (g : GraphicsState) (sampledPoints : List Point) :
    GraphicsState × Option JsError :=
  fillPoints g sampledPoints (some true) none

/-- Graphics#slice: pushes `BEGIN_PATH`, `MOVE_TO, x, y`, `ARC, x, y,
radius, startAngle, endAngle, anticlockwise` (defaulted to `false` when
omitted), `CLOSE_PATH` — and nothing else. -/
def slice (g : GraphicsState) (x y radius startAngle endAngle : ℚ)
    (anticlockwise : Option Bool) : GraphicsState :=
  { g with
      commandBuffer := g.commandBuffer ++
        [JsVal.cmd Commands.BEGIN_PATH,
          JsVal.cmd Commands.MOVE_TO, JsVal.num x, JsVal.num y,
          JsVal.cmd Commands.ARC, JsVal.num x, JsVal.num y, JsVal.num radius,
          JsVal.num startAngle, JsVal.num endAngle,
          JsVal.bool (anticlockwise.getD false),
          JsVal.cmd Commands.CLOSE_PATH] }

/-- Graphics#save. -/
def save (g : GraphicsState) : GraphicsState :=
  { g with commandBuffer := g.commandBuffer ++ [JsVal.cmd Commands.SAVE] }

/-- Graphics#restore. -/
def restore (g : GraphicsState) : GraphicsState :=
  { g with commandBuffer := g.commandBuffer ++ [JsVal.cmd Commands.RESTORE] }

/-- Graphics#translate. -/
def translate (g : GraphicsState) (x y : ℚ) : GraphicsState :=
  { g with
      commandBuffer := g.commandBuffer ++
        [JsVal.cmd Commands.TRANSLATE, JsVal.num x, JsVal.num y] }

/-- Graphics#scale. -/
def scale (g : GraphicsState) (x y : ℚ) : GraphicsState :=
  { g with
      commandBuffer := g.commandBuffer ++
        [JsVal.cmd Commands.SCALE, JsVal.num x, JsVal.num y] }

/-- Graphics#rotate. -/
def rotate (g : GraphicsState) (radians : ℚ) : GraphicsState :=
  { g with
      commandBuffer := g.commandBuffer ++
        [JsVal.cmd Commands.ROTATE, JsVal.num radians] }

/-- Graphics#clear: `this.commandBuffer.length = 0`, then re-applies the
fill default via `fillStyle` iff `defaultFillColor > -1`, then the stroke
default via `lineStyle` iff `defaultStrokeColor > -1` (which also
refreshes the `_lineWidth` cache). -/
def clear (g : GraphicsState) : GraphicsState :=
  let g := { g with commandBuffer := [] }
  let g :=
    if g.defaultFillColor > -1 then fillStyle g g.defaultFillColor (some g.defaultFillAlpha)
    else g
  if g.defaultStrokeColor > -1 then
    lineStyle g g.defaultStrokeWidth g.defaultStrokeColor (some g.defaultStrokeAlpha)
  else g

/-- Graphics#preDestroy: `this.commandBuffer = []`. -/
def preDestroy (g : GraphicsState) : GraphicsState :=
  { g with commandBuffer := [] }

/-- The `lineStyle` entry of the construction options: the nested
`lineStyle.width` / `.color` / `.alpha` keys, each optional (`GetValue`
defaults: width 1, color 0xffffff, alpha 1). -/
structure LineStyleOptions where
  width : Option ℚ
  color : Option ℚ
  alpha : Option ℚ
deriving DecidableEq, Repr

/-- The `fillStyle` entry of the construction options (`GetValue`
defaults: color 0xffffff, alpha 1). -/
structure FillStyleOptions where
  color : Option ℚ
  alpha : Option ℚ
deriving DecidableEq, Repr

/-- The construction options object: optional position and the optional
`lineStyle` / `fillStyle` entries read by `setDefaultStyles` via
`GetValue` (modelled as `Option` fields). -/
structure GraphicsOptions where
  x : Option ℚ
  y : Option ℚ
  lineStyle : Option LineStyleOptions
  fillStyle : Option FillStyleOptions
deriving DecidableEq, Repr

/-- Graphics#setDefaultStyles: if the options carry a `lineStyle` entry,
record its width/color/alpha as the stroke defaults and call
`this.lineStyle` with them; then, independently, if the options carry a
`fillStyle` entry, record its color/alpha as the fill defaults and call
`this.fillStyle` — line style strictly before fill style. -/
def setDefaultStyles (g : GraphicsState) (options : GraphicsOptions) : GraphicsState :=
  let g :=
    match options.lineStyle with
    | none => g
    | some ls =>
        let g := { g with
          defaultStrokeWidth := ls.width.getD 1
          defaultStrokeColor := ls.color.getD 0xffffff
          defaultStrokeAlpha := ls.alpha.getD 1 }
        lineStyle g g.defaultStrokeWidth g.defaultStrokeColor (some g.defaultStrokeAlpha)
  match options.fillStyle with
  | none => g
  | some fs =>
      let g := { g with
        defaultFillColor := fs.color.getD 0xffffff
        defaultFillAlpha := fs.alpha.getD 1 }
      fillStyle g g.defaultFillColor (some g.defaultFillAlpha)

/-- The Graphics constructor: position from the options (default 0), an
empty command buffer, sentinel style defaults (`defaultFillColor = -1`,
`defaultStrokeColor = -1`, alphas 1, `defaultStrokeWidth = 1`,
`_lineWidth = 1.0`), then `setDefaultStyles(options)`. -/
def mkGraphics (options : GraphicsOptions) : GraphicsState :=
  setDefaultStyles
    { x := options.x.getD 0
      y := options.y.getD 0
      commandBuffer := []
      defaultFillColor := -1
      defaultFillAlpha := 1
      defaultStrokeWidth := 1
      defaultStrokeColor := -1
      defaultStrokeAlpha := 1
      lineWidth := 1 }
    options

/-- Construction options with no entries set. -/
def emptyOptions : GraphicsOptions :=
  { x := none, y := none, lineStyle := none, fillStyle := none }

/-- A freshly constructed Graphics object with no style configuration. -/
def emptyGraphics : GraphicsState := mkGraphics emptyOptions

/-- The state of the shared `Graphics.TargetCamera` used by
`generateTexture` (Camera itself is not part of the reviewed sources; the
fields written by `generateTexture` — the viewport rectangle via
`setViewport(0, 0, width, height)` and the scroll position — are modelled
per the spec's description of the auxiliary capture viewport). -/
structure CameraState where
  x : ℚ
  y : ℚ
  width : ℚ
  height : ℚ
  scrollX : ℚ
  scrollY : ℚ
deriving DecidableEq, Repr

/-- The `key` argument of `generateTexture`: a string, an
`HTMLCanvasElement`, or anything else (which resolves no drawing
context). -/
inductive TextureKey where
  | str (name : String)
  | canvasElement
  | other
deriving DecidableEq, Repr

/-- Modelled from the spec: the behaviour of the external collaborators of
`generateTexture` for the given call — the game config dimensions, the
Texture/Surface registry's answers for the given key (`exists`, whether
the existing texture's source image is a canvas, whether `createCanvas`
throws a resource error), and whether the renderer is WebGL. -/
structure CaptureEnv where
  configWidth : ℚ
  configHeight : ℚ
  texExists : Bool
  existingSourceIsCanvas : Bool
  createCanvasThrows : Bool
  rendererGL : Bool
deriving DecidableEq, Repr

/-- How a `generateTexture` call resolved. -/
inductive CaptureOutcome where
  | drewToExisting (uploadedToGL : Bool)
  | drewToNew (uploadedToGL : Bool)
  | drewToCanvasKey
  | noContext
  | resourceError
deriving DecidableEq, Repr

/-- Graphics#generateTexture: defaults `width` / `height` from the game
config, repositions the shared `TargetCamera` (`setViewport(0, 0, width,
height)`, `scrollX = this.x`, `scrollY = this.y`), resolves a 2-D context
from the key (existing texture whose source is a canvas / newly created
canvas texture / canvas element / nothing), replays the buffer into it via
`renderCanvas` when a context was found, and uploads to a GL texture when
the renderer is WebGL and a texture object is in hand. Modelled from the
spec where the collaborators are outside the reviewed sources: the replay
(`renderCanvas`, GraphicsRender.js) is a read-only traversal of the
command buffer, and a throwing `createCanvas` aborts the call. The method
never writes `this.commandBuffer` or any style-default field, so the
`GraphicsState` is returned as it came in on every path. -/
def generateTexture (g : GraphicsState) (cam : CameraState) (env : CaptureEnv)
    (key : TextureKey) (width height : Option ℚ) :
    GraphicsState × CameraState × CaptureOutcome :=
  let w := width.getD env.configWidth
  let h := height.getD env.configHeight
  let cam := { cam with
    x := 0, y := 0, width := w, height := h, scrollX := g.x, scrollY := g.y }
  match key with
  | TextureKey.str _ =>
      if env.texExists then
        if env.existingSourceIsCanvas then
          (g, cam, CaptureOutcome.drewToExisting env.rendererGL)
        else
          (g, cam, CaptureOutcome.noContext)
      else if env.createCanvasThrows then
        (g, cam, CaptureOutcome.resourceError)
      else
        (g, cam, CaptureOutcome.drewToNew env.rendererGL)
  | TextureKey.canvasElement => (g, cam, CaptureOutcome.drewToCanvasKey)
  | TextureKey.other => (g, cam, CaptureOutcome.noContext)

/-! Derived instruction-sequence descriptions used by the theorems. -/

/-- The flattened `LINE_TO` instructions produced for a list of points. -/
def lineToInstrs : List Point → List JsVal
  | [] => []
  | p :: ps => JsVal.cmd Commands.LINE_TO :: JsVal.num p.x :: JsVal.num p.y :: lineToInstrs ps

/-- One `BEGIN_PATH` / `MOVE_TO` / `LINE_TO` / `STROKE_PATH` edge group of
`strokeRect`, from `(ax, ay)` to `(bx, b_y)`. -/
def strokeGroup (ax ay bx b_y : ℚ) : List JsVal :=
  [JsVal.cmd Commands.BEGIN_PATH,
    JsVal.cmd Commands.MOVE_TO, JsVal.num ax, JsVal.num ay,
    JsVal.cmd Commands.LINE_TO, JsVal.num bx, JsVal.num b_y,
    JsVal.cmd Commands.STROKE_PATH]

/-- The instruction sequence appended by `slice`. -/
def sliceInstrs (x y radius startAngle endAngle : ℚ) (anticlockwise : Bool) : List JsVal :=
  [JsVal.cmd Commands.BEGIN_PATH,
    JsVal.cmd Commands.MOVE_TO, JsVal.num x, JsVal.num y,
    JsVal.cmd Commands.ARC, JsVal.num x, JsVal.num y, JsVal.num radius,
    JsVal.num startAngle, JsVal.num endAngle, JsVal.bool anticlockwise,
    JsVal.cmd Commands.CLOSE_PATH]

/-- The command buffer of `g'` is that of `g` with some sequence of
instructions appended. -/
def BufferAppends (g g' : GraphicsState) : Prop :=
  ∃ d, g'.commandBuffer = g.commandBuffer ++ d

theorem BufferAppends.trans {g₁ g₂ g₃ : GraphicsState}
    (h₁ : BufferAppends g₁ g₂) (h₂ : BufferAppends g₂ g₃) : BufferAppends g₁ g₃ := by
  obtain ⟨d₁, e₁⟩ := h₁
  obtain ⟨d₂, e₂⟩ := h₂
  exact ⟨d₁ ++ d₂, by rw [e₂, e₁, List.append_assoc]⟩

theorem fillCircle_eq (g : GraphicsState) (x y radius : ℚ) :
    fillCircle g x y radius =
      { g with commandBuffer := g.commandBuffer ++
          [JsVal.cmd Commands.BEGIN_PATH,
            JsVal.cmd Commands.ARC, JsVal.num x, JsVal.num y, JsVal.num radius,
            JsVal.num 0, JsVal.num PI2, JsVal.undef,
            JsVal.cmd Commands.FILL_PATH] } := by
  simp [fillCircle, fillPath, arc, beginPath, optBoolVal]

theorem strokeCircle_eq (g : GraphicsState) (x y radius : ℚ) :
    strokeCircle g x y radius =
      { g with commandBuffer := g.commandBuffer ++
          [JsVal.cmd Commands.BEGIN_PATH,
            JsVal.cmd Commands.ARC, JsVal.num x, JsVal.num y, JsVal.num radius,
            JsVal.num 0, JsVal.num PI2, JsVal.undef,
            JsVal.cmd Commands.STROKE_PATH] } := by
  simp [strokeCircle, strokePath, arc, beginPath, optBoolVal]

theorem strokeRect_eq (g : GraphicsState) (x y width height : ℚ) :
    strokeRect g x y width height =
      { g with commandBuffer := g.commandBuffer ++
          (strokeGroup x y x (y + height) ++
            strokeGroup (x + width) y (x + width) (y + height) ++
            strokeGroup (x - g.lineWidth / 2) y (x + g.lineWidth / 2 + width) y ++
            strokeGroup (x - g.lineWidth / 2) (y + height)
              (x + g.lineWidth / 2 + width) (y + height)) } := by
  simp [strokeRect, strokePath, lineTo, moveTo, beginPath, strokeGroup]

theorem lineBetween_eq (g : GraphicsState) (x1 y1 x2 y2 : ℚ) :
    lineBetween g x1 y1 x2 y2 =
      { g with commandBuffer := g.commandBuffer ++
          [JsVal.cmd Commands.BEGIN_PATH,
            JsVal.cmd Commands.MOVE_TO, JsVal.num x1, JsVal.num y1,
            JsVal.cmd Commands.LINE_TO, JsVal.num x2, JsVal.num y2,
            JsVal.cmd Commands.STROKE_PATH] } := by
  simp [lineBetween, strokePath, lineTo, moveTo, beginPath]

theorem slice_eq (g : GraphicsState) (x y radius startAngle endAngle : ℚ)
    (anticlockwise : Option Bool) :
    slice g x y radius startAngle endAngle anticlockwise =
      { g with commandBuffer := g.commandBuffer ++
          sliceInstrs x y radius startAngle endAngle (anticlockwise.getD false) } := rfl

theorem clear_buffer (g : GraphicsState) :
    (clear g).commandBuffer =
      (if g.defaultFillColor > -1 then
        [JsVal.cmd Commands.FILL_STYLE, JsVal.num g.defaultFillColor,
          JsVal.num g.defaultFillAlpha]
      else []) ++
      (if g.defaultStrokeColor > -1 then
        [JsVal.cmd Commands.LINE_STYLE, JsVal.num g.defaultStrokeWidth,
          JsVal.num g.defaultStrokeColor, JsVal.num g.defaultStrokeAlpha]
      else []) := by
  by_cases h1 : g.defaultFillColor > -1 <;> by_cases h2 : g.defaultStrokeColor > -1 <;>
    simp [clear, fillStyle, lineStyle, h1, h2]

theorem get?_eq_of_drop_eq_cons {pts rest : List Point} {q : Point} :
    ∀ {i : ℕ}, pts.drop i = q :: rest → pts.get? i = some q := by
  induction pts with
  | nil => intro i h; simp at h
  | cons p ps ih =>
      intro i h
      cases i with
      | zero => simp at h; simp [h.1]
      | succ i => exact ih h

theorem drop_succ_of_drop_eq_cons {pts rest : List Point} {q : Point} :
    ∀ {i : ℕ}, pts.drop i = q :: rest → pts.drop (i + 1) = rest := by
  induction pts with
  | nil => intro i h; simp at h
  | cons p ps ih =>
      intro i h
      cases i with
      | zero => simp at h ⊢; exact h.2
      | succ i => exact ih h

theorem lineToLoop_run (rest : List Point) :
    ∀ (pts : List Point) (i : ℕ) (g : GraphicsState), pts.drop i = rest →
      lineToLoop rest.length g pts i =
        ({ g with commandBuffer := g.commandBuffer ++ lineToInstrs rest }, none) := by
  induction rest with
  | nil => intro pts i g _; simp [lineToLoop, lineToInstrs]
  | cons q rest ih =>
      intro pts i g h
      have hq : pts.get? i = some q := get?_eq_of_drop_eq_cons h
      have hdrop : pts.drop (i + 1) = rest := drop_succ_of_drop_eq_cons h
      simp only [List.length_cons, lineToLoop, hq]
      rw [ih pts (i + 1) (lineTo g q.x q.y) hdrop]
      simp [lineTo, lineToInstrs]

theorem lineToLoop_appends :
    ∀ (n : ℕ) (g : GraphicsState) (pts : List Point) (i : ℕ),
      BufferAppends g (lineToLoop n g pts i).1 := by
  intro n
  induction n with
  | zero => intro g pts i; exact ⟨[], by simp [lineToLoop]⟩
  | succ n ih =>
      intro g pts i
      cases hq : pts.get? i with
      | none => simp only [lineToLoop, hq]; exact ⟨[], by simp⟩
      | some p =>
          simp only [lineToLoop, hq]
          exact BufferAppends.trans
            ⟨[JsVal.cmd Commands.LINE_TO, JsVal.num p.x, JsVal.num p.y], rfl⟩
            (ih (lineTo g p.x p.y) pts (i + 1))

theorem strokePoints_appends (g : GraphicsState) (points : List Point)
    (autoClose : Option Bool) (endIndex : Option ℕ) :
    BufferAppends g (strokePoints g points autoClose endIndex).1 := by
  unfold strokePoints
  cases h0 : points.get? 0 with
  | none => exact ⟨[JsVal.cmd Commands.BEGIN_PATH], rfl⟩
  | some p0 =>
      simp only
      cases hl : lineToLoop ((endIndex.getD points.length) - 1)
          (moveTo (beginPath g) p0.x p0.y) points 1 with
      | mk g' e =>
          have hext : BufferAppends g g' := by
            have := lineToLoop_appends ((endIndex.getD points.length) - 1)
              (moveTo (beginPath g) p0.x p0.y) points 1
            rw [hl] at this
            exact BufferAppends.trans
              (BufferAppends.trans ⟨[JsVal.cmd Commands.BEGIN_PATH], rfl⟩
                ⟨[JsVal.cmd Commands.MOVE_TO, JsVal.num p0.x, JsVal.num p0.y], rfl⟩) this
          cases e with
          | none =>
              by_cases hac : autoClose.getD false <;>
                simp only [hac, if_true, if_false] <;>
                [exact BufferAppends.trans hext
                  (BufferAppends.trans
                    ⟨[JsVal.cmd Commands.LINE_TO, JsVal.num p0.x, JsVal.num p0.y], rfl⟩
                    ⟨[JsVal.cmd Commands.STROKE_PATH], rfl⟩);
                 exact BufferAppends.trans hext ⟨[JsVal.cmd Commands.STROKE_PATH], rfl⟩]
          | some err => exact hext

theorem fillPoints_appends (g : GraphicsState) (points : List Point)
    (autoClose : Option Bool) (endIndex : Option ℕ) :
    BufferAppends g (fillPoints g points autoClose endIndex).1 := by
  unfold fillPoints
  cases h0 : points.get? 0 with
  | none => exact ⟨[JsVal.cmd Commands.BEGIN_PATH], rfl⟩
  | some p0 =>
      simp only
      cases hl : lineToLoop ((endIndex.getD points.length) - 1)
          (moveTo (beginPath g) p0.x p0.y) points 1 with
      | mk g' e =>
          have hext : BufferAppends g g' := by
            have := lineToLoop_appends ((endIndex.getD points.length) - 1)
              (moveTo (beginPath g) p0.x p0.y) points 1
            rw [hl] at this
            exact BufferAppends.trans
              (BufferAppends.trans ⟨[JsVal.cmd Commands.BEGIN_PATH], rfl⟩
                ⟨[JsVal.cmd Commands.MOVE_TO, JsVal.num p0.x, JsVal.num p0.y], rfl⟩) this
          cases e with
          | none =>
              by_cases hac : autoClose.getD false <;>
                simp only [hac, if_true, if_false] <;>
                [exact BufferAppends.trans hext
                  (BufferAppends.trans
                    ⟨[JsVal.cmd Commands.LINE_TO, JsVal.num p0.x, JsVal.num p0.y], rfl⟩
                    ⟨[JsVal.cmd Commands.FILL_PATH], rfl⟩);
                 exact BufferAppends.trans hext ⟨[JsVal.cmd Commands.FILL_PATH], rfl⟩]
          | some err => exact hext

theorem generateTexture_fst (g : GraphicsState) (cam : CameraState) (env : CaptureEnv)
    (key : TextureKey) (width height : Option ℚ) :
    (generateTexture g cam env key width height).1 = g := by
  cases key <;> simp only [generateTexture] <;> split_ifs <;> rfl

/-! Geometry objects accepted by the `...Shape` convenience overloads. -/

/-- A `Phaser.Geom.Circle`: center and radius. -/
structure Circle where
  x : ℚ
  y : ℚ
  radius : ℚ
deriving DecidableEq, Repr

/-- A `Phaser.Geom.Rectangle`: origin, width and height. -/
structure Rectangle where
  x : ℚ
  y : ℚ
  width : ℚ
  height : ℚ
deriving DecidableEq, Repr

/-- A `Phaser.Geom.Triangle`: three vertices. -/
structure Triangle where
  x1 : ℚ
  y1 : ℚ
  x2 : ℚ
  y2 : ℚ
  x3 : ℚ
  y3 : ℚ
deriving DecidableEq, Repr

/-- A `Phaser.Geom.Line`: two endpoints. -/
structure Line where
  x1 : ℚ
  y1 : ℚ
  x2 : ℚ
  y2 : ℚ
deriving DecidableEq, Repr

/-- Graphics#fillCircleShape: destructures and delegates to `fillCircle`. -/
def fillCircleShape (g : GraphicsState) (circle : Circle) : GraphicsState :=
  fillCircle g circle.x circle.y circle.radius

/-- Graphics#strokeCircleShape: delegates to `strokeCircle`. -/
def strokeCircleShape (g : GraphicsState) (circle : Circle) : GraphicsState :=
  strokeCircle g circle.x circle.y circle.radius

/-- Graphics#fillRectShape: delegates to `fillRect`. -/
def fillRectShape (g : GraphicsState) (rect : Rectangle) : GraphicsState :=
  fillRect g rect.x rect.y rect.width rect.height

/-- Graphics#strokeRectShape: delegates to `strokeRect`. -/
def strokeRectShape (g : GraphicsState) (rect : Rectangle) : GraphicsState :=
  strokeRect g rect.x rect.y rect.width rect.height

/-- Graphics#fillPointShape: delegates to `fillPoint`. -/
def fillPointShape (g : GraphicsState) (point : Point) (size : Option ℚ) : GraphicsState :=
  fillPoint g point.x point.y size

/-- Graphics#fillTriangleShape: delegates to `fillTriangle`. -/
def fillTriangleShape (g : GraphicsState) (triangle : Triangle) : GraphicsState :=
  fillTriangle g triangle.x1 triangle.y1 triangle.x2 triangle.y2 triangle.x3 triangle.y3

/-- Graphics#strokeTriangleShape: delegates to `strokeTriangle`. -/
def strokeTriangleShape (g : GraphicsState) (triangle : Triangle) : GraphicsState :=
  strokeTriangle g triangle.x1 triangle.y1 triangle.x2 triangle.y2 triangle.x3 triangle.y3

/-- Graphics#strokeLineShape: delegates to `lineBetween`. -/
def strokeLineShape (g : GraphicsState) (line : Line) : GraphicsState :=
  lineBetween g line.x1 line.y1 line.x2 line.y2

/-- One invocation of a public drawing / style / path / transform method
of the Graphics object — every buffer-touching public operation other
than `clear`, `generateTexture` and `preDestroy` (the ellipse methods
carry the boundary points sampled by the external Ellipse helper). -/
inductive GOp where
  | lineStyle (lw color : ℚ) (alpha : Option ℚ)
  | fillStyle (color : ℚ) (alpha : Option ℚ)
  | beginPath
  | closePath
  | fillPath
  | strokePath
  | fillCircleShape (circle : Circle)
  | strokeCircleShape (circle : Circle)
  | fillCircle (x y radius : ℚ)
  | strokeCircle (x y radius : ℚ)
  | fillRectShape (rect : Rectangle)
  | strokeRectShape (rect : Rectangle)
  | fillRect (x y width height : ℚ)
  | strokeRect (x y width height : ℚ)
  | fillPointShape (point : Point) (size : Option ℚ)
  | fillPoint (x y : ℚ) (size : Option ℚ)
  | fillTriangleShape (triangle : Triangle)
  | strokeTriangleShape (triangle : Triangle)
  | fillTriangle (x0 y0 x1 y1 x2 y2 : ℚ)
  | strokeTriangle (x0 y0 x1 y1 x2 y2 : ℚ)
  | strokeLineShape (line : Line)
  | lineBetween (x1 y1 x2 y2 : ℚ)
  | lineTo (x y : ℚ)
  | moveTo (x y : ℚ)
  | lineFxTo (x y width rgb : ℚ)
  | moveFxTo (x y width rgb : ℚ)
  | strokePoints (points : List Point) (autoClose : Option Bool) (endIndex : Option ℕ)
  | fillPoints (points : List Point) (autoClose : Option Bool) (endIndex : Option ℕ)
  | strokeEllipse (sampledPoints : List Point)
  | fillEllipse (sampledPoints : List Point)
  | arc (x y radius startAngle endAngle : ℚ) (anticlockwise : Option Bool)
  | slice (x y radius startAngle endAngle : ℚ) (anticlockwise : Option Bool)
  | save
  | restore
  | translate (x y : ℚ)
  | scale (x y : ℚ)
  | rotate (radians : ℚ)
deriving DecidableEq, Repr

/-- Applies one public operation to the Graphics state (for the two
fallible point-path methods and the ellipse methods that delegate to
them, the state component of the result — the state the object holds
afterwards, whether or not a `TypeError` was thrown). -/
def applyOp : GOp → GraphicsState → GraphicsState
  | GOp.lineStyle lw color alpha, g => lineStyle g lw color alpha
  | GOp.fillStyle color alpha, g => fillStyle g color alpha
  | GOp.beginPath, g => beginPath g
  | GOp.closePath, g => closePath g
  | GOp.fillPath, g => fillPath g
  | GOp.strokePath, g => strokePath g
  | GOp.fillCircleShape cir, g => fillCircleShape g cir
  | GOp.strokeCircleShape cir, g => strokeCircleShape g cir
  | GOp.fillCircle x y radius, g => fillCircle g x y radius
  | GOp.strokeCircle x y radius, g => strokeCircle g x y radius
  | GOp.fillRectShape rect, g => fillRectShape g rect
  | GOp.strokeRectShape rect, g => strokeRectShape g rect
  | GOp.fillRect x y width height, g => fillRect g x y width height
  | GOp.strokeRect x y width height, g => strokeRect g x y width height
  | GOp.fillPointShape point size, g => fillPointShape g point size
  | GOp.fillPoint x y size, g => fillPoint g x y size
  | GOp.fillTriangleShape triangle, g => fillTriangleShape g triangle
  | GOp.strokeTriangleShape triangle, g => strokeTriangleShape g triangle
  | GOp.fillTriangle x0 y0 x1 y1 x2 y2, g => fillTriangle g x0 y0 x1 y1 x2 y2
  | GOp.strokeTriangle x0 y0 x1 y1 x2 y2, g => strokeTriangle g x0 y0 x1 y1 x2 y2
  | GOp.strokeLineShape line, g => strokeLineShape g line
  | GOp.lineBetween x1 y1 x2 y2, g => lineBetween g x1 y1 x2 y2
  | GOp.lineTo x y, g => lineTo g x y
  | GOp.moveTo x y, g => moveTo g x y
  | GOp.lineFxTo x y width rgb, g => lineFxTo g x y width rgb
  | GOp.moveFxTo x y width rgb, g => moveFxTo g x y width rgb
  | GOp.strokePoints points autoClose endIndex, g => (strokePoints g points autoClose endIndex).1
  | GOp.fillPoints points autoClose endIndex, g => (fillPoints g points autoClose endIndex).1
  | GOp.strokeEllipse sampledPoints, g => (strokeEllipse g sampledPoints).1
  | GOp.fillEllipse sampledPoints, g => (fillEllipse g sampledPoints).1
  | GOp.arc x y radius startAngle endAngle anticlockwise, g =>
      arc g x y radius startAngle endAngle anticlockwise
  | GOp.slice x y radius startAngle endAngle anticlockwise, g =>
      slice g x y radius startAngle endAngle anticlockwise
  | GOp.save, g => save g
  | GOp.restore, g => restore g
  | GOp.translate x y, g => translate g x y
  | GOp.scale x y, g => scale g x y
  | GOp.rotate radians, g => rotate g radians

/-- A Graphics state whose fill default is the negative fractional color
`-1/2` (strictly between the `-1` sentinel and `0`) and whose stroke
default is the `-1` sentinel. -/
def negFillGraphics : GraphicsState :=
  { x := 0, y := 0, commandBuffer := [], defaultFillColor := -1 / 2
    defaultFillAlpha := 1, defaultStrokeWidth := 1, defaultStrokeColor := -1
    defaultStrokeAlpha := 1, lineWidth := 1 }

/-- Construction options carrying both a line style (width 2, color 3,
alpha 1) and a fill style (color 5, alpha 1). -/
def bothStylesOptions : GraphicsOptions :=
  { x := none, y := none
    lineStyle := some { width := some 2, color := some 3, alpha := some 1 }
    fillStyle := some { color := some 5, alpha := some 1 } }

/-! Claim theorems. -/

/-- C1 (counterexample): `fillCircle` does not put the boolean `false` in
the anticlockwise slot of the `ARC` instruction — it omits the argument to
`arc`, which pushes the JS value `undefined` there instead. At the
concrete input `fillCircle(0, 0, 1)` on a fresh object, the buffer is not
the claimed `[BEGIN_PATH, ARC(0, 0, 1, 0, 2π, false), FILL_PATH]`. -/
theorem fillCircle_anticlockwise_not_false :
    (fillCircle emptyGraphics 0 0 1).commandBuffer ≠
        [JsVal.cmd Commands.BEGIN_PATH,
          JsVal.cmd Commands.ARC, JsVal.num 0, JsVal.num 0, JsVal.num 1,
          JsVal.num 0, JsVal.num PI2, JsVal.bool false,
          JsVal.cmd Commands.FILL_PATH] ∧
      (fillCircle emptyGraphics 0 0 1).commandBuffer =
        [JsVal.cmd Commands.BEGIN_PATH,
          JsVal.cmd Commands.ARC, JsVal.num 0, JsVal.num 0, JsVal.num 1,
          JsVal.num 0, JsVal.num PI2, JsVal.undef,
          JsVal.cmd Commands.FILL_PATH] := by
  have h2 : (fillCircle emptyGraphics 0 0 1).commandBuffer =
      [JsVal.cmd Commands.BEGIN_PATH,
        JsVal.cmd Commands.ARC, JsVal.num 0, JsVal.num 0, JsVal.num 1,
        JsVal.num 0, JsVal.num PI2, JsVal.undef,
        JsVal.cmd Commands.FILL_PATH] := rfl
  refine ⟨?_, h2⟩
  rw [h2]
  simp

/-- C1 (amended): for every x, y, radius, `fillCircle(x, y, radius)`
appends exactly `[BEGIN_PATH, ARC(x, y, radius, 0, 2π, undefined),
FILL_PATH]` — the anticlockwise operand is the JS value `undefined`
(falsy, but not the boolean `false`), because `fillCircle` omits the
argument and `arc` pushes it without defaulting; `strokeCircle` is
identical with `STROKE_PATH` in place of `FILL_PATH`. -/
theorem fillCircle_strokeCircle_expansion (g : GraphicsState) (x y radius : ℚ) :
    fillCircle g x y radius =
        { g with commandBuffer := g.commandBuffer ++
            [JsVal.cmd Commands.BEGIN_PATH,
              JsVal.cmd Commands.ARC, JsVal.num x, JsVal.num y, JsVal.num radius,
              JsVal.num 0, JsVal.num PI2, JsVal.undef,
              JsVal.cmd Commands.FILL_PATH] } ∧
      strokeCircle g x y radius =
        { g with commandBuffer := g.commandBuffer ++
            [JsVal.cmd Commands.BEGIN_PATH,
              JsVal.cmd Commands.ARC, JsVal.num x, JsVal.num y, JsVal.num radius,
              JsVal.num 0, JsVal.num PI2, JsVal.undef,
              JsVal.cmd Commands.STROKE_PATH] } :=
  ⟨fillCircle_eq g x y radius, strokeCircle_eq g x y radius⟩

/-- C2 (counterexample): the guard in `clear` is `defaultFillColor > -1`,
not "non-negative": on a state whose fill default is `-1/2` (negative,
hence "unset" under the claim's non-negative reading) and whose stroke
default is the `-1` sentinel, `clear()` still appends a `FILL_STYLE`
instruction, so the buffer is not empty as the claim's biconditional
requires. -/
theorem clear_negative_fractional_fill :
    negFillGraphics.defaultFillColor < 0 ∧
      negFillGraphics.defaultStrokeColor < 0 ∧
      (clear negFillGraphics).commandBuffer =
        [JsVal.cmd Commands.FILL_STYLE, JsVal.num (-1 / 2), JsVal.num 1] := by
  refine ⟨by norm_num [negFillGraphics], by norm_num [negFillGraphics], ?_⟩
  rw [clear_buffer]
  norm_num [negFillGraphics]

/-- C2 (amended): for every state, `clear()` leaves the buffer holding
exactly a `FILL_STYLE(defaultFillColor, defaultFillAlpha)` instruction iff
`defaultFillColor > -1` (strictly above the `-1` sentinel — which also
admits negative colors in `(-1, 0)`), followed by a
`LINE_STYLE(defaultStrokeWidth, defaultStrokeColor, defaultStrokeAlpha)`
instruction iff `defaultStrokeColor > -1`, in fill-before-stroke order;
the buffer is empty iff neither condition holds. -/
theorem clear_reapplies_defaults (g : GraphicsState) :
    (clear g).commandBuffer =
        (if g.defaultFillColor > -1 then
          [JsVal.cmd Commands.FILL_STYLE, JsVal.num g.defaultFillColor,
            JsVal.num g.defaultFillAlpha]
        else []) ++
        (if g.defaultStrokeColor > -1 then
          [JsVal.cmd Commands.LINE_STYLE, JsVal.num g.defaultStrokeWidth,
            JsVal.num g.defaultStrokeColor, JsVal.num g.defaultStrokeAlpha]
        else []) ∧
      ((clear g).commandBuffer = [] ↔
        ¬ g.defaultFillColor > -1 ∧ ¬ g.defaultStrokeColor > -1) := by
  refine ⟨clear_buffer g, ?_⟩
  rw [clear_buffer g]
  by_cases h1 : g.defaultFillColor > -1 <;> by_cases h2 : g.defaultStrokeColor > -1 <;>
    simp [h1, h2]

/-- C3: `strokeRect(x, y, w, h)` appends exactly four
begin/move/line/stroke groups — left edge (full height), right edge (full
height), top edge, bottom edge, in that order — where the top and bottom
edges span `[x - hw, x + hw + w]` with `hw` half the cached line width;
the cache is written by `lineStyle` and starts at `1.0` on an object
constructed without a line-style option. -/
theorem strokeRect_four_edge_groups :
    (∀ (g : GraphicsState) (x y width height : ℚ),
        strokeRect g x y width height =
          { g with commandBuffer := g.commandBuffer ++
              (strokeGroup x y x (y + height) ++
                strokeGroup (x + width) y (x + width) (y + height) ++
                strokeGroup (x - g.lineWidth / 2) y (x + g.lineWidth / 2 + width) y ++
                strokeGroup (x - g.lineWidth / 2) (y + height)
                  (x + g.lineWidth / 2 + width) (y + height)) }) ∧
      (∀ (g : GraphicsState) (lw color : ℚ) (alpha : Option ℚ),
        (lineStyle g lw color alpha).lineWidth = lw) ∧
      (∀ options : GraphicsOptions, options.lineStyle = none →
        (mkGraphics options).lineWidth = 1) := by
  refine ⟨strokeRect_eq, fun g lw color alpha => rfl, ?_⟩
  intro options h
  unfold mkGraphics setDefaultStyles
  rw [h]
  cases options.fillStyle <;> simp [fillStyle]

/-- C3 (witness): on a fresh object with no line-style option, the cached
line width is 1, so `strokeRect(0, 0, 10, 5)` extends the top and bottom
edges by `1/2` on each end. -/
theorem strokeRect_four_edge_groups_witness :
    emptyOptions.lineStyle = none ∧
      (mkGraphics emptyOptions).lineWidth = 1 ∧
      (strokeRect emptyGraphics 0 0 10 5).commandBuffer =
        strokeGroup 0 0 0 5 ++ strokeGroup 10 0 10 5 ++
          strokeGroup (-1 / 2) 0 (21 / 2) 0 ++ strokeGroup (-1 / 2) 5 (21 / 2) 5 := by
  refine ⟨rfl, strokeRect_four_edge_groups.2.2 emptyOptions rfl, ?_⟩
  rw [strokeRect_four_edge_groups.1 emptyGraphics 0 0 10 5]
  have hlw : emptyGraphics.lineWidth = 1 := rfl
  have hbuf : emptyGraphics.commandBuffer = [] := rfl
  simp only [hlw, hbuf, List.nil_append]
  norm_num [strokeGroup]

/-- C4 (counterexample): on an empty point list neither method fails fast
with a defined "empty geometry" error: at the concrete call
`strokePoints([])` (and `fillPoints([])`) the builder first appends
`BEGIN_PATH` and then reads `points[0]` out of bounds, throwing the JS
`TypeError` of a property access on `undefined`. -/
theorem strokePoints_empty_reads_out_of_bounds :
    strokePoints emptyGraphics [] none none =
        ({ emptyGraphics with commandBuffer := [JsVal.cmd Commands.BEGIN_PATH] },
          some JsError.typeError) ∧
      fillPoints emptyGraphics [] none none =
        ({ emptyGraphics with commandBuffer := [JsVal.cmd Commands.BEGIN_PATH] },
          some JsError.typeError) := by
  constructor <;> decide

/-- C4 (amended): for every state and every choice of the optional
arguments, `strokePoints` and `fillPoints` on an empty point sequence do
not reach any defined "empty geometry" error branch — no such check
exists; they dereference the first point unconditionally, which on an
empty sequence is an out-of-bounds read (a thrown `TypeError`), after
`BEGIN_PATH` has already been appended to the buffer. -/
theorem strokePoints_fillPoints_empty (g : GraphicsState)
    (autoClose : Option Bool) (endIndex : Option ℕ) :
    strokePoints g [] autoClose endIndex =
        ({ g with commandBuffer := g.commandBuffer ++ [JsVal.cmd Commands.BEGIN_PATH] },
          some JsError.typeError) ∧
      fillPoints g [] autoClose endIndex =
        ({ g with commandBuffer := g.commandBuffer ++ [JsVal.cmd Commands.BEGIN_PATH] },
          some JsError.typeError) := by
  constructor <;> simp [strokePoints, fillPoints, beginPath]

/-- C5: for every non-empty point list `p :: rest` with the end index left
to default to the list's length, `strokePoints` appends `BEGIN_PATH`,
`MOVE_TO(p)`, a `LINE_TO` per point of `rest` in order, one extra
`LINE_TO(p)` iff `autoClose` is true (it defaults to false), and
`STROKE_PATH`, throwing no error; `fillPoints` is identical with
`FILL_PATH` at the end. -/
theorem strokePoints_fillPoints_expansion (g : GraphicsState) (p : Point)
    (rest : List Point) (autoClose : Option Bool) :
    strokePoints g (p :: rest) autoClose none =
        ({ g with commandBuffer := g.commandBuffer ++
            (JsVal.cmd Commands.BEGIN_PATH ::
              JsVal.cmd Commands.MOVE_TO :: JsVal.num p.x :: JsVal.num p.y ::
              (lineToInstrs rest ++
                (if autoClose.getD false then lineToInstrs [p] else []) ++
                [JsVal.cmd Commands.STROKE_PATH])) }, none) ∧
      fillPoints g (p :: rest) autoClose none =
        ({ g with commandBuffer := g.commandBuffer ++
            (JsVal.cmd Commands.BEGIN_PATH ::
              JsVal.cmd Commands.MOVE_TO :: JsVal.num p.x :: JsVal.num p.y ::
              (lineToInstrs rest ++
                (if autoClose.getD false then lineToInstrs [p] else []) ++
                [JsVal.cmd Commands.FILL_PATH])) }, none) := by
  have hrun := lineToLoop_run rest (p :: rest) 1
    (moveTo (beginPath g) p.x p.y) (by simp)
  cases autoClose with
  | none =>
      constructor <;>
        · simp only [strokePoints, fillPoints, List.length_cons, Option.getD_none,
            Option.getD_some, Nat.add_sub_cancel, List.get?]
          rw [hrun]
          simp [strokePath, fillPath, lineTo, moveTo, beginPath, lineToInstrs,
            List.append_assoc]
  | some b =>
      constructor <;>
        · simp only [strokePoints, fillPoints, List.length_cons, Option.getD_none,
            Option.getD_some, Nat.add_sub_cancel, List.get?]
          rw [hrun]
          cases b <;>
            simp [strokePath, fillPath, lineTo, moveTo, beginPath, lineToInstrs,
              List.append_assoc]

/-- C6: `fillPoint(x, y, size)` with `size` omitted, `0`, or `0.5` appends
exactly `FILL_RECT(x, y, 1, 1)` with no centering offset; and for every
`size ≥ 1` it appends exactly `FILL_RECT(x - size/2, y - size/2, size,
size)` (so `size = 4` gives `FILL_RECT(x-2, y-2, 4, 4)`). -/
theorem fillPoint_size_semantics :
    (∀ (g : GraphicsState) (x y : ℚ),
        fillPoint g x y none =
          { g with commandBuffer := g.commandBuffer ++
              [JsVal.cmd Commands.FILL_RECT, JsVal.num x, JsVal.num y,
                JsVal.num 1, JsVal.num 1] }) ∧
      (∀ (g : GraphicsState) (x y : ℚ),
        fillPoint g x y (some 0) =
          { g with commandBuffer := g.commandBuffer ++
              [JsVal.cmd Commands.FILL_RECT, JsVal.num x, JsVal.num y,
                JsVal.num 1, JsVal.num 1] }) ∧
      (∀ (g : GraphicsState) (x y : ℚ),
        fillPoint g x y (some (1 / 2)) =
          { g with commandBuffer := g.commandBuffer ++
              [JsVal.cmd Commands.FILL_RECT, JsVal.num x, JsVal.num y,
                JsVal.num 1, JsVal.num 1] }) ∧
      (∀ (g : GraphicsState) (x y size : ℚ), 1 ≤ size →
        fillPoint g x y (some size) =
          { g with commandBuffer := g.commandBuffer ++
              [JsVal.cmd Commands.FILL_RECT, JsVal.num (x - size / 2),
                JsVal.num (y - size / 2), JsVal.num size, JsVal.num size] }) := by
  refine ⟨fun g x y => rfl, fun g x y => by norm_num [fillPoint, fillRect],
    fun g x y => by norm_num [fillPoint, fillRect], fun g x y size h => ?_⟩
  have h0 : ¬ (size = 0 ∨ size < 1) := by
    push_neg
    constructor <;> [linarith; linarith]
  simp [fillPoint, fillRect, h0]

/-- C6 (witness): `fillPoint(10, 20, 4)` appends
`FILL_RECT(8, 18, 4, 4)`. -/
theorem fillPoint_size_semantics_witness :
    (1 : ℚ) ≤ 4 ∧
      (fillPoint emptyGraphics 10 20 (some 4)).commandBuffer =
        [JsVal.cmd Commands.FILL_RECT, JsVal.num 8, JsVal.num 18,
          JsVal.num 4, JsVal.num 4] := by
  refine ⟨by norm_num, ?_⟩
  rw [fillPoint_size_semantics.2.2.2 emptyGraphics 10 20 4 (by norm_num)]
  have hbuf : emptyGraphics.commandBuffer = [] := rfl
  simp only [hbuf, List.nil_append]
  norm_num

/-- C7: every embedded public drawing / style / path / transform
operation only appends to the command buffer — the prior contents are an
unchanged prefix of the result; `preDestroy` empties the buffer
wholesale; `clear` discards the prior contents wholesale (its result is
the same whatever the buffer held); and `generateTexture` leaves the
buffer untouched. -/
theorem commandBuffer_append_only :
    (∀ (op : GOp) (g : GraphicsState),
        ∃ d, (applyOp op g).commandBuffer = g.commandBuffer ++ d) ∧
      (∀ g : GraphicsState, (preDestroy g).commandBuffer = []) ∧
      (∀ g : GraphicsState, clear g = clear { g with commandBuffer := [] }) ∧
      (∀ (g : GraphicsState) (cam : CameraState) (env : CaptureEnv) (key : TextureKey)
          (width height : Option ℚ),
        (generateTexture g cam env key width height).1.commandBuffer = g.commandBuffer) := by
  refine ⟨?_, fun g => rfl, fun g => rfl,
    fun g cam env key width height => by rw [generateTexture_fst]⟩
  intro op g
  cases op with
  | lineStyle lw color alpha => exact ⟨_, rfl⟩
  | fillStyle color alpha => exact ⟨_, rfl⟩
  | beginPath => exact ⟨_, rfl⟩
  | closePath => exact ⟨_, rfl⟩
  | fillPath => exact ⟨_, rfl⟩
  | strokePath => exact ⟨_, rfl⟩
  | fillCircleShape cir =>
      exact ⟨_, by rw [show applyOp (GOp.fillCircleShape cir) g =
        fillCircleShape g cir from rfl, fillCircleShape, fillCircle_eq]⟩
  | strokeCircleShape cir =>
      exact ⟨_, by rw [show applyOp (GOp.strokeCircleShape cir) g =
        strokeCircleShape g cir from rfl, strokeCircleShape, strokeCircle_eq]⟩
  | fillCircle x y radius => exact ⟨_, by rw [show applyOp (GOp.fillCircle x y radius) g =
      fillCircle g x y radius from rfl, fillCircle_eq]⟩
  | strokeCircle x y radius => exact ⟨_, by rw [show applyOp (GOp.strokeCircle x y radius) g =
      strokeCircle g x y radius from rfl, strokeCircle_eq]⟩
  | fillRectShape rect => exact ⟨_, rfl⟩
  | strokeRectShape rect =>
      exact ⟨_, by rw [show applyOp (GOp.strokeRectShape rect) g =
        strokeRectShape g rect from rfl, strokeRectShape, strokeRect_eq]⟩
  | fillRect x y width height => exact ⟨_, rfl⟩
  | strokeRect x y width height =>
      exact ⟨_, by rw [show applyOp (GOp.strokeRect x y width height) g =
        strokeRect g x y width height from rfl, strokeRect_eq]⟩
  | fillPointShape point size =>
      cases size with
      | none => exact ⟨_, rfl⟩
      | some s =>
          by_cases hs : s = 0 ∨ s < 1
          · exact ⟨[JsVal.cmd Commands.FILL_RECT, JsVal.num point.x, JsVal.num point.y,
              JsVal.num 1, JsVal.num 1],
              by simp [applyOp, fillPointShape, fillPoint, fillRect, hs]⟩
          · exact ⟨[JsVal.cmd Commands.FILL_RECT, JsVal.num (point.x - s / 2),
              JsVal.num (point.y - s / 2), JsVal.num s, JsVal.num s],
              by simp [applyOp, fillPointShape, fillPoint, fillRect, hs]⟩
  | fillPoint x y size =>
      cases size with
      | none => exact ⟨_, rfl⟩
      | some s =>
          by_cases hs : s = 0 ∨ s < 1
          · exact ⟨[JsVal.cmd Commands.FILL_RECT, JsVal.num x, JsVal.num y,
              JsVal.num 1, JsVal.num 1], by simp [applyOp, fillPoint, fillRect, hs]⟩
          · exact ⟨[JsVal.cmd Commands.FILL_RECT, JsVal.num (x - s / 2),
              JsVal.num (y - s / 2), JsVal.num s, JsVal.num s],
              by simp [applyOp, fillPoint, fillRect, hs]⟩
  | fillTriangleShape triangle => exact ⟨_, rfl⟩
  | strokeTriangleShape triangle => exact ⟨_, rfl⟩
  | fillTriangle x0 y0 x1 y1 x2 y2 => exact ⟨_, rfl⟩
  | strokeTriangle x0 y0 x1 y1 x2 y2 => exact ⟨_, rfl⟩
  | strokeLineShape line =>
      exact ⟨_, by rw [show applyOp (GOp.strokeLineShape line) g =
        strokeLineShape g line from rfl, strokeLineShape, lineBetween_eq]⟩
  | lineBetween x1 y1 x2 y2 =>
      exact ⟨_, by rw [show applyOp (GOp.lineBetween x1 y1 x2 y2) g =
        lineBetween g x1 y1 x2 y2 from rfl, lineBetween_eq]⟩
  | lineTo x y => exact ⟨_, rfl⟩
  | moveTo x y => exact ⟨_, rfl⟩
  | lineFxTo x y width rgb => exact ⟨_, rfl⟩
  | moveFxTo x y width rgb => exact ⟨_, rfl⟩
  | strokePoints points autoClose endIndex => exact strokePoints_appends g points autoClose endIndex
  | fillPoints points autoClose endIndex => exact fillPoints_appends g points autoClose endIndex
  | strokeEllipse sampledPoints => exact strokePoints_appends g sampledPoints (some true) none
  | fillEllipse sampledPoints => exact fillPoints_appends g sampledPoints (some true) none
  | arc x y radius startAngle endAngle anticlockwise => exact ⟨_, rfl⟩
  | slice x y radius startAngle endAngle anticlockwise => exact ⟨_, rfl⟩
  | save => exact ⟨_, rfl⟩
  | restore => exact ⟨_, rfl⟩
  | translate x y => exact ⟨_, rfl⟩
  | scale x y => exact ⟨_, rfl⟩
  | rotate radians => exact ⟨_, rfl⟩

/-- C8: `slice(x, y, radius, startAngle, endAngle, anticlockwise)` appends
exactly `BEGIN_PATH, MOVE_TO(x, y), ARC(x, y, radius, startAngle,
endAngle, anticlockwise)` with `anticlockwise` defaulting to `false` when
unspecified, then `CLOSE_PATH` — and the appended sequence contains no
`FILL_PATH` and no `STROKE_PATH` instruction. -/
theorem slice_expansion (g : GraphicsState) (x y radius startAngle endAngle : ℚ)
    (anticlockwise : Option Bool) :
    slice g x y radius startAngle endAngle anticlockwise =
        { g with commandBuffer := g.commandBuffer ++
            sliceInstrs x y radius startAngle endAngle (anticlockwise.getD false) } ∧
      JsVal.cmd Commands.FILL_PATH ∉
        sliceInstrs x y radius startAngle endAngle (anticlockwise.getD false) ∧
      JsVal.cmd Commands.STROKE_PATH ∉
        sliceInstrs x y radius startAngle endAngle (anticlockwise.getD false) := by
  refine ⟨slice_eq g x y radius startAngle endAngle anticlockwise, ?_, ?_⟩ <;>
    simp [sliceInstrs]

/-- C9: a `generateTexture` call returns the Graphics state exactly as it
came in on every path — for every prior buffer, every key kind and every
collaborator behaviour, including the capture aborted by a throwing
`createCanvas` — so the command buffer and all five style defaults are
unchanged. -/
theorem generateTexture_leaves_buffer_unchanged (g : GraphicsState) (cam : CameraState)
    (env : CaptureEnv) (key : TextureKey) (width height : Option ℚ) :
    (generateTexture g cam env key width height).1 = g :=
  generateTexture_fst g cam env key width height

/-- C10: when the construction options carry both a line style and a fill
style, `setDefaultStyles` appends `LINE_STYLE` before `FILL_STYLE` — the
reverse of the fill-before-stroke order `clear()` uses when re-applying
the same defaults — so the freshly constructed buffer and the cleared
buffer (when both configured colors exceed the `-1` sentinel) hold the
same two style instructions in opposite orders. -/
theorem construction_vs_clear_style_order (options : GraphicsOptions)
    (lw lc la fc fa : ℚ)
    (hls : options.lineStyle = some ⟨some lw, some lc, some la⟩)
    (hfs : options.fillStyle = some ⟨some fc, some fa⟩) :
    (mkGraphics options).commandBuffer =
        [JsVal.cmd Commands.LINE_STYLE, JsVal.num lw, JsVal.num lc, JsVal.num la,
          JsVal.cmd Commands.FILL_STYLE, JsVal.num fc, JsVal.num fa] ∧
      (lc > -1 → fc > -1 →
        (clear (mkGraphics options)).commandBuffer =
          [JsVal.cmd Commands.FILL_STYLE, JsVal.num fc, JsVal.num fa,
            JsVal.cmd Commands.LINE_STYLE, JsVal.num lw, JsVal.num lc, JsVal.num la]) := by
  have hmk : mkGraphics options =
      { x := options.x.getD 0, y := options.y.getD 0
        commandBuffer :=
          [JsVal.cmd Commands.LINE_STYLE, JsVal.num lw, JsVal.num lc, JsVal.num la,
            JsVal.cmd Commands.FILL_STYLE, JsVal.num fc, JsVal.num fa]
        defaultFillColor := fc, defaultFillAlpha := fa
        defaultStrokeWidth := lw, defaultStrokeColor := lc, defaultStrokeAlpha := la
        lineWidth := lw } := by
    unfold mkGraphics setDefaultStyles
    rw [hls, hfs]
    simp [lineStyle, fillStyle]
  refine ⟨by rw [hmk], fun hlc hfc => ?_⟩
  rw [hmk]
  simp [clear, fillStyle, lineStyle, hlc, hfc]

/-- C10 (witness): construction with line style (width 2, color 3,
alpha 1) and fill style (color 5, alpha 1) yields `LINE_STYLE, FILL_STYLE`;
clearing the same object yields `FILL_STYLE, LINE_STYLE`. -/
theorem construction_vs_clear_style_order_witness :
    bothStylesOptions.lineStyle = some ⟨some 2, some 3, some 1⟩ ∧
      (mkGraphics bothStylesOptions).commandBuffer =
        [JsVal.cmd Commands.LINE_STYLE, JsVal.num 2, JsVal.num 3, JsVal.num 1,
          JsVal.cmd Commands.FILL_STYLE, JsVal.num 5, JsVal.num 1] ∧
      (clear (mkGraphics bothStylesOptions)).commandBuffer =
        [JsVal.cmd Commands.FILL_STYLE, JsVal.num 5, JsVal.num 1,
          JsVal.cmd Commands.LINE_STYLE, JsVal.num 2, JsVal.num 3, JsVal.num 1] :=
  ⟨rfl,
    (construction_vs_clear_style_order bothStylesOptions 2 3 1 5 1 rfl rfl).1,
    (construction_vs_clear_style_order bothStylesOptions 2 3 1 5 1 rfl rfl).2
      (by norm_num) (by norm_num)⟩

end PhaserGraphics
